import Mathlib

/-!
AddTaskEMCALPi0Calibration: verification development for `PWGPP/EMCAL/macros/AddTaskEMCALPi0Calibration.C`.

The source is one function that configures an `AliAnalysisTaskEMCALPi0CalibSelection`
object through a fixed sequence of calls and wires it into the `AliAnalysisManager`.
It is embedded as a state-passing function: every statement of the source is one step
that performs its effect on the running state and appends the call to a trace.

Modelling conventions
* `TString` and `const char *` values are `String`; text is NUL-free, so `.Data()`
  is the identity, and a null `const char *` is the empty string (as `TString` makes it).
* `Form(fmt, ...)` with `%s` arguments is string concatenation.
* A pointer is an address `Ptr`; `new` takes the next free address of the process.
* `Float_t` literals are kept as written (`num / den`); no arithmetic is done on them.
-/

namespace AliPhysics

/-- Address of a heap object: the value of a C++ pointer. -/
abbrev Ptr := Nat

/-- A `Float_t` literal as written in the source, `num / den`. -/
structure Float_t where
  num : Nat
  den : Nat
deriving DecidableEq, Repr

/-- The container kinds of `AliAnalysisManager::EAliAnalysisContType`. -/
inductive EAliAnalysisContType
  | kExchangeContainer
  | kInputContainer
  | kOutputContainer
  | kParamContainer
deriving DecidableEq, Repr

/-- Modelled from the spec: `AliAnalysisDataContainer` (framework class, not in this
file): "named input/output slot in the host manager's dataflow graph; created and owned
by the manager". `addr` is the address `CreateContainer` returned. -/
structure AliAnalysisDataContainer where
  addr : Ptr
  fName : String
  fType : String
  fContType : EAliAnalysisContType
  fFileName : String
deriving DecidableEq, Repr

/-- One edge of the manager's dataflow graph: slot `slot` of task `task` is connected
to the container at address `cont`; `isInput` tells input slots from output slots. -/
structure Connection where
  isInput : Bool
  task : Ptr
  slot : Nat
  cont : Ptr
deriving DecidableEq, Repr

/-- Modelled from the spec: `AliAnalysisManager` (framework class, not in this file):
"supplies input handler lookup, common file name, task/container registration,
input/output connection". `fInputEventHandler` tells whether `GetInputEventHandler()`
is non-null; `fCommonInput` is what `GetCommonInputContainer()` returns. -/
structure AliAnalysisManager where
  fInputEventHandler : Bool
  fCommonInput : Ptr
  fTasks : List Ptr
  fContainers : List AliAnalysisDataContainer
  fConnections : List Connection
deriving DecidableEq, Repr

/-- Modelled from the spec: the members of `AliEMCALRecoUtils` this file writes
(`SetNumberOfCellsFromEMCALBorder`, `SwitchOn/OffRecalibration`,
`SwitchOn/OffRunDepCorrection`). -/
structure AliEMCALRecoUtils where
  fNCellsFromEMCALBorder : Int
  fRecalibration : Bool
  fUseRunCorrectionFactors : Bool
deriving DecidableEq, Repr

/-- Modelled from the spec: the members of `AliAnalysisTaskEMCALPi0CalibSelection`
this file writes through its setters, and the reco-utils object the task owns. -/
structure AliAnalysisTaskEMCALPi0CalibSelection where
  fName : String
  fEmin : Float_t
  fEmax : Float_t
  fL0min : Float_t
  fL0max : Float_t
  fAsyCut : Float_t
  fMinNCells : Int
  fGroupNCells : Int
  fSameSM : Bool
  fDTimeCut : Float_t
  fTimeMin : Float_t
  fTimeMax : Float_t
  fTriggerName : String
  fCorrectClusters : Bool
  fEMCALGeoName : String
  fLoadMatrices : Bool
  fCalibFilePath : String
  fRecalPosition : Bool
  fRecoUtils : AliEMCALRecoUtils
deriving DecidableEq, Repr

/-- The calls the source makes on the task object `pi0calib`. -/
inductive TaskCall
  | SetClusterMinEnergy (emin : Float_t)
  | SetClusterMaxEnergy (emax : Float_t)
  | SetClusterLambda0Cuts (min max : Float_t)
  | SetAsymmetryCut (asy : Float_t)
  | SetClusterMinNCells (n : Int)
  | SetNCellsGroup (n : Int)
  | SwitchOnSameSM
  | SetPairDTimeCut (t : Float_t)
  | SetClusterMinTime (tmin : Float_t)
  | SetClusterMaxTime (tmax : Float_t)
  | SetTriggerName (name : String)
  | GetEMCALRecoUtils
  | SwitchOnClusterCorrection
  | SetGeometryName (name : String)
  | SwitchOnLoadOwnGeometryMatrices
  | SetCalibrationFilePath (path : String)
  | InitEnergyCalibrationFactors
  | SwitchOffLoadOwnGeometryMatrices
  | SwitchOffRecalculatePosition
  | PrintInfo
deriving DecidableEq, Repr

/-- The calls the source makes on the reco-utils object `reco`. -/
inductive RecoCall
  | SetNumberOfCellsFromEMCALBorder (n : Int)
  | SwitchOnRecalibration
  | SwitchOnRunDepCorrection
  | SwitchOffRecalibration
  | SwitchOffRunDepCorrection
deriving DecidableEq, Repr

/-- Every call the source makes, in the order it makes them, is one entry of the trace. -/
inductive Call
  | GetAnalysisManager
  | GetInputEventHandler
  | Error (location msg : String)
  | newTask (name : String) (p : Ptr)
  | task (c : TaskCall)
  | ConfigureEMCALRecoUtils (bMC bExotic bNonLin bRecalE bBad bRecalT : Bool)
  | reco (c : RecoCall)
  | printf (text : String)
  | AddTask (t : Ptr)
  | GetCommonFileName
  | GetCommonInputContainer
  | CreateContainer (name type : String) (contType : EAliAnalysisContType)
      (filename : String) (p : Ptr)
  | ConnectInput (t : Ptr) (islot : Nat) (cont : Ptr)
  | ConnectOutput (t : Ptr) (islot : Nat) (cont : Ptr)
deriving DecidableEq, Repr

/-- The routines the source calls whose bodies are in other files: the constructor of
the task (given the name, it yields the initial object), the configuration routine of
`ConfigureEMCALRecoUtils.C`, and the loader `InitEnergyCalibrationFactors`. They are
parameters: every theorem holds for whatever they do. -/
structure Externals where
  ctor : String → AliAnalysisTaskEMCALPi0CalibSelection
  ConfigureEMCALRecoUtils :
    AliEMCALRecoUtils → Bool → Bool → Bool → Bool → Bool → Bool → AliEMCALRecoUtils
  InitEnergyCalibrationFactors :
    AliAnalysisTaskEMCALPi0CalibSelection → AliAnalysisTaskEMCALPi0CalibSelection

/-- Modelled from the spec: the inline setters of `AliAnalysisTaskEMCALPi0CalibSelection`
(declared in its header, not in this file): each `Set*` stores its argument, each
`SwitchOn*`/`SwitchOff*` sets its flag; `GetEMCALRecoUtils` and `PrintInfo` change
nothing. -/
def TaskCall.exec (ext : Externals) :
    TaskCall → AliAnalysisTaskEMCALPi0CalibSelection → AliAnalysisTaskEMCALPi0CalibSelection
  | .SetClusterMinEnergy emin, t => { t with fEmin := emin }
  | .SetClusterMaxEnergy emax, t => { t with fEmax := emax }
  | .SetClusterLambda0Cuts min max, t => { t with fL0max := max, fL0min := min }
  | .SetAsymmetryCut asy, t => { t with fAsyCut := asy }
  | .SetClusterMinNCells n, t => { t with fMinNCells := n }
  | .SetNCellsGroup n, t => { t with fGroupNCells := n }
  | .SwitchOnSameSM, t => { t with fSameSM := true }
  | .SetPairDTimeCut v, t => { t with fDTimeCut := v }
  | .SetClusterMinTime tmin, t => { t with fTimeMin := tmin }
  | .SetClusterMaxTime tmax, t => { t with fTimeMax := tmax }
  | .SetTriggerName name, t => { t with fTriggerName := name }
  | .GetEMCALRecoUtils, t => t
  | .SwitchOnClusterCorrection, t => { t with fCorrectClusters := true }
  | .SetGeometryName name, t => { t with fEMCALGeoName := name }
  | .SwitchOnLoadOwnGeometryMatrices, t => { t with fLoadMatrices := true }
  | .SetCalibrationFilePath path, t => { t with fCalibFilePath := path }
  | .InitEnergyCalibrationFactors, t => ext.InitEnergyCalibrationFactors t
  | .SwitchOffLoadOwnGeometryMatrices, t => { t with fLoadMatrices := false }
  | .SwitchOffRecalculatePosition, t => { t with fRecalPosition := false }
  | .PrintInfo, t => t

/-- Modelled from the spec: the inline setters of `AliEMCALRecoUtils` used here. -/
def RecoCall.exec : RecoCall → AliEMCALRecoUtils → AliEMCALRecoUtils
  | .SetNumberOfCellsFromEMCALBorder n, r => { r with fNCellsFromEMCALBorder := n }
  | .SwitchOnRecalibration, r => { r with fRecalibration := true }
  | .SwitchOnRunDepCorrection, r => { r with fUseRunCorrectionFactors := true }
  | .SwitchOffRecalibration, r => { r with fRecalibration := false }
  | .SwitchOffRunDepCorrection, r => { r with fUseRunCorrectionFactors := false }

/-- The process-wide state the function starts from and leaves behind: the manager
singleton behind `AliAnalysisManager::GetAnalysisManager()` (`none` is the null
pointer), the static common output file name, the next free heap address, and the
calls made so far. -/
structure World where
  fgAnalysisManager : Option AliAnalysisManager
  fgCommonFileName : String
  nextPtr : Ptr
  trace : List Call
deriving DecidableEq, Repr

/-- Append a call to the trace. -/
def World.log (w : World) (c : Call) : World :=
  { w with trace := w.trace ++ [c] }

/-- The state while the body runs, after both guards have passed: the manager `*mgr`,
the object `*pi0calib` (`reco` points at its `fRecoUtils`), the next free address and
the trace. -/
structure State where
  mgr : AliAnalysisManager
  pi0calib : AliAnalysisTaskEMCALPi0CalibSelection
  nextPtr : Ptr
  trace : List Call
deriving DecidableEq, Repr

/-- `pi0calib->c(...)`. -/
def State.task (ext : Externals) (c : TaskCall) (s : State) : State :=
  { s with pi0calib := c.exec ext s.pi0calib, trace := s.trace ++ [Call.task c] }

/-- `reco->c(...)`, where `reco == pi0calib->GetEMCALRecoUtils()`. -/
def State.reco (c : RecoCall) (s : State) : State :=
  { s with
    pi0calib := { s.pi0calib with fRecoUtils := c.exec s.pi0calib.fRecoUtils },
    trace := s.trace ++ [Call.reco c] }

/-- `ConfigureEMCALRecoUtils(reco, bMC, bExotic, bNonLin, bRecalE, bBad, bRecalT)`. -/
def State.ConfigureEMCALRecoUtils (ext : Externals)
    (bMC bExotic bNonLin bRecalE bBad bRecalT : Bool) (s : State) : State :=
  { s with
    pi0calib := { s.pi0calib with
      fRecoUtils := ext.ConfigureEMCALRecoUtils s.pi0calib.fRecoUtils
        bMC bExotic bNonLin bRecalE bBad bRecalT },
    trace := s.trace ++ [Call.ConfigureEMCALRecoUtils bMC bExotic bNonLin bRecalE bBad bRecalT] }

/-- `printf(text)`. -/
def State.printf (text : String) (s : State) : State :=
  { s with trace := s.trace ++ [Call.printf text] }

/-- Modelled from the spec: `mgr->AddTask(t)` (framework method, not in this file):
"Register the task with the manager", an entry added to the manager's task list. -/
def State.AddTask (t : Ptr) (s : State) : State :=
  { s with
    mgr := { s.mgr with fTasks := s.mgr.fTasks ++ [t] },
    trace := s.trace ++ [Call.AddTask t] }

/-- `mgr->GetCommonInputContainer()`. -/
def State.GetCommonInputContainer (s : State) : Ptr × State :=
  (s.mgr.fCommonInput, { s with trace := s.trace ++ [Call.GetCommonInputContainer] })

/-- Modelled from the spec: `mgr->CreateContainer(name, type, contType, filename)`
(framework method, not in this file): "Create an output container", a new container
at a fresh address added to the manager's container list; its address is returned. -/
def State.CreateContainer (name type : String) (contType : EAliAnalysisContType)
    (filename : String) (s : State) : Ptr × State :=
  (s.nextPtr,
   { s with
     mgr := { s.mgr with
       fContainers := s.mgr.fContainers ++ [⟨s.nextPtr, name, type, contType, filename⟩] },
     nextPtr := s.nextPtr + 1,
     trace := s.trace ++ [Call.CreateContainer name type contType filename s.nextPtr] })

/-- Modelled from the spec: `mgr->ConnectInput(t, islot, cont)` (framework method, not
in this file): the container is connected to the task's input slot. -/
def State.ConnectInput (t : Ptr) (islot : Nat) (cont : Ptr) (s : State) : State :=
  { s with
    mgr := { s.mgr with fConnections := s.mgr.fConnections ++ [⟨true, t, islot, cont⟩] },
    trace := s.trace ++ [Call.ConnectInput t islot cont] }

/-- Modelled from the spec: `mgr->ConnectOutput(t, islot, cont)` (framework method, not
in this file): the container is connected to the task's output slot. -/
def State.ConnectOutput (t : Ptr) (islot : Nat) (cont : Ptr) (s : State) : State :=
  { s with
    mgr := { s.mgr with fConnections := s.mgr.fConnections ++ [⟨false, t, islot, cont⟩] },
    trace := s.trace ++ [Call.ConnectOutput t islot cont] }

/-- What an invocation leaves: the returned pointer (`none` is `NULL`), the object it
points to as it is at return, and the process-wide state. -/
structure Outcome where
  result : Option Ptr
  pi0calib : Option AliAnalysisTaskEMCALPi0CalibSelection
  world : World

/-- The function `AddTaskEMCALPi0Calibration` of the source, statement by statement. -/
def AddTaskEMCALPi0Calibration (ext : Externals)
    (calibPath trigger : String) (recalE recalT rmBad nonlin simu : Bool)
    (outputFile trigSuffix : String) (w : World) : Outcome :=
  let w := w.log Call.GetAnalysisManager
  match w.fgAnalysisManager with
  | none =>
    let w := w.log (Call.Error "AddTaskEMCALTriggerQA" "No analysis manager to connect to.")
    ⟨none, none, w⟩
  | some mgr =>
    let w := w.log Call.GetInputEventHandler
    if !mgr.fInputEventHandler then
      let w := w.log
        (Call.Error "AddTaskEMCALPi0Calibration" "This task requires an input event handler")
      ⟨none, none, w⟩
    else
      let wagon := trigSuffix
      let trigger := if wagon.length > 0 then wagon else trigger
      let pi0calib : Ptr := w.nextPtr
      let s : State :=
        { mgr := mgr
          pi0calib := ext.ctor ("EMCALPi0Calibration_" ++ trigger)
          nextPtr := w.nextPtr + 1
          trace := w.trace ++ [Call.newTask ("EMCALPi0Calibration_" ++ trigger) pi0calib] }
      let s := s.task ext (.SetClusterMinEnergy ⟨7, 10⟩)
      let s := s.task ext (.SetClusterMaxEnergy ⟨10, 1⟩)
      let s := s.task ext (.SetClusterLambda0Cuts ⟨1, 10⟩ ⟨5, 10⟩)
      let s := s.task ext (.SetAsymmetryCut ⟨1, 1⟩)
      let s := s.task ext (.SetClusterMinNCells 1)
      let s := s.task ext (.SetNCellsGroup 0)
      let s := s.task ext .SwitchOnSameSM
      let s := s.task ext (.SetPairDTimeCut ⟨100, 1⟩)
      let s := s.task ext (.SetClusterMinTime ⟨300, 1⟩)
      let s := s.task ext (.SetClusterMaxTime ⟨800, 1⟩)
      let s := s.task ext (.SetTriggerName trigger)
      let s := s.task ext .GetEMCALRecoUtils
      let s := s.ConfigureEMCALRecoUtils ext simu true nonlin recalE rmBad recalT
      let s := s.reco (.SetNumberOfCellsFromEMCALBorder 0)
      let s := s.task ext .SwitchOnClusterCorrection
      let s := s.reco .SwitchOnRecalibration
      let s := s.reco .SwitchOnRunDepCorrection
      let s := s.task ext (.SetGeometryName "EMCAL_COMPLETE12SMV1_DCAL_8SM")
      let s := s.task ext .SwitchOnLoadOwnGeometryMatrices
      let s := s.task ext (.SetCalibrationFilePath calibPath)
      let s :=
        if calibPath != "" && recalE then
          let s := s.printf
            ("AddTaskEMCALPi0Calibration - Get the energy calibration factors from: \n "
              ++ calibPath ++ " \n")
          s.task ext .InitEnergyCalibrationFactors
        else s
      let s :=
        if !recalE then
          let s := s.reco .SwitchOffRecalibration
          let s := s.reco .SwitchOffRunDepCorrection
          let s := s.task ext .SwitchOffLoadOwnGeometryMatrices
          let s := s.task ext .SwitchOffRecalculatePosition
          s.printf
            "AddTaskEMCALPi0Calibration - Pi0 Calibration: Do not recalculate the clusters! First iteration. \n"
        else s
      let s := s.task ext .PrintInfo
      let s := s.AddTask pi0calib
      let (outputFile, s) :=
        if outputFile.length == 0 then
          (w.fgCommonFileName, { s with trace := s.trace ++ [Call.GetCommonFileName] })
        else (outputFile, s)
      let (cinput1, s) := s.GetCommonInputContainer
      let (coutput, s) :=
        if wagon.length == 0 then
          s.CreateContainer ("Pi0Calibration_Trig" ++ trigger) "TList"
            .kOutputContainer outputFile
        else
          let containerName := "Pi0Calibration"
          s.CreateContainer wagon "TList"
            .kOutputContainer (outputFile ++ ":" ++ containerName)
      let s := s.AddTask pi0calib
      let s := s.ConnectInput pi0calib 0 cinput1
      let s := s.ConnectOutput pi0calib 1 coutput
      ⟨some pi0calib, some s.pi0calib,
        { fgAnalysisManager := some s.mgr
          fgCommonFileName := w.fgCommonFileName
          nextPtr := s.nextPtr
          trace := s.trace }⟩

/-! Observations on worlds, outcomes and traces -/
/-- The manager's task list; empty when there is no manager. -/
def World.tasks (w : World) : List Ptr :=
  match w.fgAnalysisManager with
  | some m => m.fTasks
  | none => []

/-- The manager's container list; empty when there is no manager. -/
def World.containers (w : World) : List AliAnalysisDataContainer :=
  match w.fgAnalysisManager with
  | some m => m.fContainers
  | none => []

/-- The manager's connections; empty when there is no manager. -/
def World.connections (w : World) : List Connection :=
  match w.fgAnalysisManager with
  | some m => m.fConnections
  | none => []

/-- The calls made by an invocation that started in `w` and ended in `out`. -/
def callsOf (w : World) (out : Outcome) : List Call :=
  out.world.trace.drop w.trace.length

/-- The containers created by an invocation that started in `w` and ended in `out`. -/
def createdContainers (w : World) (out : Outcome) : List AliAnalysisDataContainer :=
  out.world.containers.drop w.containers.length

/-- Calls that can write the configuration of the task or of its reco-utils object:
`Set*`, `SwitchOn*`, `SwitchOff*`, `InitEnergyCalibrationFactors` and
`ConfigureEMCALRecoUtils`. -/
def Call.isConfiguration : Call → Bool
  | .task .GetEMCALRecoUtils => false
  | .task .PrintInfo => false
  | .task _ => true
  | .reco _ => true
  | .ConfigureEMCALRecoUtils .. => true
  | _ => false

/-- Operations of the analysis manager. -/
def Call.isManagerOp : Call → Bool
  | .GetAnalysisManager => true
  | .GetInputEventHandler => true
  | .AddTask _ => true
  | .GetCommonFileName => true
  | .GetCommonInputContainer => true
  | .CreateContainer .. => true
  | .ConnectInput .. => true
  | .ConnectOutput .. => true
  | _ => false

/-- Is the call an `AddTask`? -/
def Call.isAddTask : Call → Bool
  | .AddTask _ => true
  | _ => false

/-- Is the call a `ConnectInput` or a `ConnectOutput`? -/
def Call.isConnect : Call → Bool
  | .ConnectInput .. => true
  | .ConnectOutput .. => true
  | _ => false

/-- The manager's common input container, when there is a manager. -/
def World.commonInput (w : World) : Option Ptr :=
  w.fgAnalysisManager.map fun m => m.fCommonInput

/-- The state of the task object after a sequence of calls: `newTask` constructs it,
the calls on the task and on its reco-utils object act on it, every other call leaves
it alone. -/
def replay (ext : Externals) :
    List Call → Option AliAnalysisTaskEMCALPi0CalibSelection →
      Option AliAnalysisTaskEMCALPi0CalibSelection
  | [], t => t
  | .newTask name _ :: cs, _ => replay ext cs (some (ext.ctor name))
  | .task c :: cs, t => replay ext cs (t.map (c.exec ext))
  | .reco c :: cs, t =>
    replay ext cs (t.map fun t => { t with fRecoUtils := c.exec t.fRecoUtils })
  | .ConfigureEMCALRecoUtils a b c d e f :: cs, t =>
    replay ext cs
      (t.map fun t => { t with fRecoUtils := ext.ConfigureEMCALRecoUtils t.fRecoUtils a b c d e f })
  | _ :: cs, t => replay ext cs t

/-- The calls a successful invocation makes, read off the source top to bottom: `p` is
the address of the new task, `cin` the manager's common input container and `common`
the common output file name. -/
def successCalls (calibPath trigger : String) (recalE recalT rmBad nonlin simu : Bool)
    (outputFile trigSuffix : String) (p cin : Ptr) (common : String) : List Call :=
  [Call.GetAnalysisManager, Call.GetInputEventHandler,
    Call.newTask ("EMCALPi0Calibration_" ++ (if trigSuffix = "" then trigger else trigSuffix)) p,
    Call.task (.SetClusterMinEnergy ⟨7, 10⟩),
    Call.task (.SetClusterMaxEnergy ⟨10, 1⟩),
    Call.task (.SetClusterLambda0Cuts ⟨1, 10⟩ ⟨5, 10⟩),
    Call.task (.SetAsymmetryCut ⟨1, 1⟩),
    Call.task (.SetClusterMinNCells 1),
    Call.task (.SetNCellsGroup 0),
    Call.task .SwitchOnSameSM,
    Call.task (.SetPairDTimeCut ⟨100, 1⟩),
    Call.task (.SetClusterMinTime ⟨300, 1⟩),
    Call.task (.SetClusterMaxTime ⟨800, 1⟩),
    Call.task (.SetTriggerName (if trigSuffix = "" then trigger else trigSuffix)),
    Call.task .GetEMCALRecoUtils,
    Call.ConfigureEMCALRecoUtils simu true nonlin recalE rmBad recalT,
    Call.reco (.SetNumberOfCellsFromEMCALBorder 0),
    Call.task .SwitchOnClusterCorrection,
    Call.reco .SwitchOnRecalibration,
    Call.reco .SwitchOnRunDepCorrection,
    Call.task (.SetGeometryName "EMCAL_COMPLETE12SMV1_DCAL_8SM"),
    Call.task .SwitchOnLoadOwnGeometryMatrices,
    Call.task (.SetCalibrationFilePath calibPath)]
  ++ (if calibPath ≠ "" ∧ recalE = true then
        [Call.printf
          ("AddTaskEMCALPi0Calibration - Get the energy calibration factors from: \n "
            ++ calibPath ++ " \n"),
         Call.task .InitEnergyCalibrationFactors]
      else [])
  ++ (if recalE = false then
        [Call.reco .SwitchOffRecalibration,
         Call.reco .SwitchOffRunDepCorrection,
         Call.task .SwitchOffLoadOwnGeometryMatrices,
         Call.task .SwitchOffRecalculatePosition,
         Call.printf
           "AddTaskEMCALPi0Calibration - Pi0 Calibration: Do not recalculate the clusters! First iteration. \n"]
      else [])
  ++ [Call.task .PrintInfo, Call.AddTask p]
  ++ (if outputFile = "" then [Call.GetCommonFileName] else [])
  ++ [Call.GetCommonInputContainer,
      Call.CreateContainer
        (if trigSuffix = "" then "Pi0Calibration_Trig" ++ trigger else trigSuffix)
        "TList" .kOutputContainer
        (if trigSuffix = "" then (if outputFile = "" then common else outputFile)
          else (if outputFile = "" then common else outputFile) ++ ":Pi0Calibration")
        (p + 1),
      Call.AddTask p,
      Call.ConnectInput p 0 cin,
      Call.ConnectOutput p 1 (p + 1)]

/-! Sample inputs -/

/-- Sample external routines: a constructor with every switch at its default, a
`ConfigureEMCALRecoUtils` that turns the run-dependent correction on, and a loader that
turns recalibration on. -/
def sampleExt : Externals :=
  { ctor := fun name =>
      { fName := name, fEmin := ⟨0, 1⟩, fEmax := ⟨0, 1⟩, fL0min := ⟨0, 1⟩, fL0max := ⟨0, 1⟩,
        fAsyCut := ⟨0, 1⟩, fMinNCells := 0, fGroupNCells := 0, fSameSM := false,
        fDTimeCut := ⟨0, 1⟩, fTimeMin := ⟨0, 1⟩, fTimeMax := ⟨0, 1⟩, fTriggerName := "",
        fCorrectClusters := false, fEMCALGeoName := "", fLoadMatrices := true,
        fCalibFilePath := "", fRecalPosition := true,
        fRecoUtils := ⟨1, false, false⟩ }
    ConfigureEMCALRecoUtils := fun r _ _ _ bRecalE _ _ =>
      { r with fRecalibration := bRecalE, fUseRunCorrectionFactors := true }
    InitEnergyCalibrationFactors := fun t =>
      { t with fRecoUtils := { t.fRecoUtils with fRecalibration := true } } }

/-- Sample process state: a manager with an input event handler, one task already
registered and connected. -/
def sampleWorld : World :=
  { fgAnalysisManager := some
      { fInputEventHandler := true, fCommonInput := 0, fTasks := [1],
        fContainers := [⟨0, "cAUTO_INPUT", "TChain", .kInputContainer, ""⟩,
                        ⟨2, "other", "TList", .kOutputContainer, "AnalysisResults.root"⟩],
        fConnections := [⟨true, 1, 0, 0⟩, ⟨false, 1, 1, 2⟩] }
    fgCommonFileName := "AnalysisResults.root"
    nextPtr := 3
    trace := [] }

/-- Sample process state without an analysis manager. -/
def noManagerWorld : World :=
  { fgAnalysisManager := none, fgCommonFileName := "AnalysisResults.root", nextPtr := 0,
    trace := [] }

/-- Sample process state whose manager has no input event handler. -/
def noHandlerWorld : World :=
  { fgAnalysisManager := some
      { fInputEventHandler := false, fCommonInput := 0, fTasks := [1],
        fContainers := [⟨2, "other", "TList", .kOutputContainer, "AnalysisResults.root"⟩],
        fConnections := [⟨false, 1, 1, 2⟩] }
    fgCommonFileName := "AnalysisResults.root"
    nextPtr := 3
    trace := [] }

/-- The process state the sample manager is left in by a first successful invocation with an
empty `trigSuffix` and the trigger `"X"`. -/
def afterFirstWagon : World :=
  (AddTaskEMCALPi0Calibration sampleExt "" "X" false false false true false "" ""
    sampleWorld).world

/-! Closed forms of the three paths, and the claims -/

/-- A string of length zero is the empty string. -/
theorem length_eq_zero_iff (s : String) : s.length = 0 ↔ s = "" := by
  constructor
  · intro h
    cases s with
    | mk d =>
      have hd : d = [] := List.length_eq_zero.mp h
      subst hd; rfl
  · rintro rfl; rfl

/-- A string of positive length is not the empty string. -/
theorem length_pos_iff (s : String) : 0 < s.length ↔ s ≠ "" := by
  rw [← not_iff_not, not_not, ← length_eq_zero_iff]; omega

/-- The value of `Form("%s:%s", a, "Pi0Calibration")`. -/
theorem append_colon_name (a : String) :
    a ++ ":" ++ "Pi0Calibration" = a ++ ":Pi0Calibration" := by
  rw [String.append_assoc]; rfl

/-- A successful invocation in closed form: what it returns, the object it built, the
manager it leaves and the calls it made. -/
theorem success_form (ext : Externals) (calibPath trigger : String)
    (recalE recalT rmBad nonlin simu : Bool) (outputFile trigSuffix : String) (w : World)
    (mgr : AliAnalysisManager) (hm : w.fgAnalysisManager = some mgr)
    (hh : mgr.fInputEventHandler = true) :
    AddTaskEMCALPi0Calibration ext calibPath trigger recalE recalT rmBad nonlin simu
        outputFile trigSuffix w =
      { result := some w.nextPtr
        pi0calib := replay ext (successCalls calibPath trigger recalE recalT rmBad nonlin simu
          outputFile trigSuffix w.nextPtr mgr.fCommonInput w.fgCommonFileName) none
        world :=
          { fgAnalysisManager := some
              { fInputEventHandler := mgr.fInputEventHandler
                fCommonInput := mgr.fCommonInput
                fTasks := mgr.fTasks ++ [w.nextPtr, w.nextPtr]
                fContainers := mgr.fContainers ++
                  [⟨w.nextPtr + 1,
                    if trigSuffix = "" then "Pi0Calibration_Trig" ++ trigger else trigSuffix,
                    "TList", .kOutputContainer,
                    if trigSuffix = "" then
                      (if outputFile = "" then w.fgCommonFileName else outputFile)
                    else (if outputFile = "" then w.fgCommonFileName else outputFile)
                      ++ ":Pi0Calibration"⟩]
                fConnections := mgr.fConnections ++
                  [⟨true, w.nextPtr, 0, mgr.fCommonInput⟩,
                   ⟨false, w.nextPtr, 1, w.nextPtr + 1⟩] }
            fgCommonFileName := w.fgCommonFileName
            nextPtr := w.nextPtr + 2
            trace := w.trace ++ successCalls calibPath trigger recalE recalT rmBad nonlin simu
              outputFile trigSuffix w.nextPtr mgr.fCommonInput w.fgCommonFileName } } := by
  unfold AddTaskEMCALPi0Calibration successCalls
  simp only [World.log, hm, hh]
  by_cases h1 : trigSuffix = "" <;> by_cases h2 : outputFile = "" <;>
    cases recalE <;> by_cases h3 : calibPath = "" <;>
    simp [h1, h2, h3, hh, replay, State.task, State.reco, State.AddTask, State.CreateContainer,
      State.ConnectInput, State.ConnectOutput, State.GetCommonInputContainer,
      State.ConfigureEMCALRecoUtils, State.printf, length_eq_zero_iff, length_pos_iff,
      append_colon_name]

/-- The calls of an invocation whose trace extends the initial one. -/
theorem callsOf_mk (w : World) (r : Option Ptr)
    (t : Option AliAnalysisTaskEMCALPi0CalibSelection) (m : Option AliAnalysisManager)
    (f : String) (n : Ptr) (cs : List Call) :
    callsOf w ⟨r, t, ⟨m, f, n, w.trace ++ cs⟩⟩ = cs := by
  simp [callsOf]

/-- With no manager the function logs the error and returns null. -/
theorem failure_no_manager (ext : Externals) (calibPath trigger : String)
    (recalE recalT rmBad nonlin simu : Bool) (outputFile trigSuffix : String) (w : World)
    (hm : w.fgAnalysisManager = none) :
    AddTaskEMCALPi0Calibration ext calibPath trigger recalE recalT rmBad nonlin simu
        outputFile trigSuffix w =
      ⟨none, none, ⟨none, w.fgCommonFileName, w.nextPtr,
        w.trace ++ [Call.GetAnalysisManager,
          Call.Error "AddTaskEMCALTriggerQA" "No analysis manager to connect to."]⟩⟩ := by
  unfold AddTaskEMCALPi0Calibration
  simp [World.log, hm]

/-- With a manager that has no input event handler the function logs the error and
returns null. -/
theorem failure_no_handler (ext : Externals) (calibPath trigger : String)
    (recalE recalT rmBad nonlin simu : Bool) (outputFile trigSuffix : String) (w : World)
    (mgr : AliAnalysisManager) (hm : w.fgAnalysisManager = some mgr)
    (hh : mgr.fInputEventHandler = false) :
    AddTaskEMCALPi0Calibration ext calibPath trigger recalE recalT rmBad nonlin simu
        outputFile trigSuffix w =
      ⟨none, none, ⟨some mgr, w.fgCommonFileName, w.nextPtr,
        w.trace ++ [Call.GetAnalysisManager, Call.GetInputEventHandler,
          Call.Error "AddTaskEMCALPi0Calibration"
            "This task requires an input event handler"]⟩⟩ := by
  unfold AddTaskEMCALPi0Calibration
  simp [World.log, hm, hh]

/-- A non-null result means both guards passed. -/
theorem guards_of_success (ext : Externals) (calibPath trigger : String)
    (recalE recalT rmBad nonlin simu : Bool) (outputFile trigSuffix : String) (w : World)
    (hs : (AddTaskEMCALPi0Calibration ext calibPath trigger recalE recalT rmBad nonlin simu
        outputFile trigSuffix w).result ≠ none) :
    ∃ mgr, w.fgAnalysisManager = some mgr ∧ mgr.fInputEventHandler = true := by
  cases hm : w.fgAnalysisManager with
  | none =>
    rw [failure_no_manager ext calibPath trigger recalE recalT rmBad nonlin simu outputFile
      trigSuffix w hm] at hs
    exact absurd rfl hs
  | some mgr =>
    cases hh : mgr.fInputEventHandler with
    | false =>
      rw [failure_no_handler ext calibPath trigger recalE recalT rmBad nonlin simu outputFile
        trigSuffix w mgr hm hh] at hs
      exact absurd rfl hs
    | true => exact ⟨mgr, rfl, hh⟩

/-- C1: the result is null if and only if there is no analysis manager or the manager has
no input event handler; for every value of the nine parameters the result is otherwise the
non-null address of the task object this invocation constructed. -/
theorem C1_null_iff_guard_fails (ext : Externals) (calibPath trigger : String)
    (recalE recalT rmBad nonlin simu : Bool) (outputFile trigSuffix : String) (w : World) :
    ((AddTaskEMCALPi0Calibration ext calibPath trigger recalE recalT rmBad nonlin simu
        outputFile trigSuffix w).result = none ↔
      (w.fgAnalysisManager = none ∨
        ∃ mgr, w.fgAnalysisManager = some mgr ∧ mgr.fInputEventHandler = false)) ∧
    ((AddTaskEMCALPi0Calibration ext calibPath trigger recalE recalT rmBad nonlin simu
        outputFile trigSuffix w).result = none ∨
      ((AddTaskEMCALPi0Calibration ext calibPath trigger recalE recalT rmBad nonlin simu
          outputFile trigSuffix w).result = some w.nextPtr ∧
        ∃ name, Call.newTask name w.nextPtr ∈
          callsOf w (AddTaskEMCALPi0Calibration ext calibPath trigger recalE recalT rmBad
            nonlin simu outputFile trigSuffix w))) := by
  cases hm : w.fgAnalysisManager with
  | none =>
    rw [failure_no_manager ext calibPath trigger recalE recalT rmBad nonlin simu outputFile
      trigSuffix w hm]
    simp
  | some mgr =>
    cases hh : mgr.fInputEventHandler with
    | false =>
      rw [failure_no_handler ext calibPath trigger recalE recalT rmBad nonlin simu outputFile
        trigSuffix w mgr hm hh]
      simp [hh]
    | true =>
      rw [success_form ext calibPath trigger recalE recalT rmBad nonlin simu outputFile
        trigSuffix w mgr hm hh, callsOf_mk]
      simp [hh, successCalls]

/-- C2: on both failure paths nothing is constructed, registered, created or connected:
the result is null, the manager (its task list, container list and connections) is what it
was, no address is allocated, and the only calls made are the guard queries and `Error`. -/
theorem C2_failure_is_atomic (ext : Externals) (calibPath trigger : String)
    (recalE recalT rmBad nonlin simu : Bool) (outputFile trigSuffix : String) (w : World)
    (hfail : w.fgAnalysisManager = none ∨
      ∃ mgr, w.fgAnalysisManager = some mgr ∧ mgr.fInputEventHandler = false) :
    (AddTaskEMCALPi0Calibration ext calibPath trigger recalE recalT rmBad nonlin simu
        outputFile trigSuffix w).result = none ∧
    (AddTaskEMCALPi0Calibration ext calibPath trigger recalE recalT rmBad nonlin simu
        outputFile trigSuffix w).pi0calib = none ∧
    (AddTaskEMCALPi0Calibration ext calibPath trigger recalE recalT rmBad nonlin simu
        outputFile trigSuffix w).world.fgAnalysisManager = w.fgAnalysisManager ∧
    (AddTaskEMCALPi0Calibration ext calibPath trigger recalE recalT rmBad nonlin simu
        outputFile trigSuffix w).world.tasks = w.tasks ∧
    (AddTaskEMCALPi0Calibration ext calibPath trigger recalE recalT rmBad nonlin simu
        outputFile trigSuffix w).world.containers = w.containers ∧
    (AddTaskEMCALPi0Calibration ext calibPath trigger recalE recalT rmBad nonlin simu
        outputFile trigSuffix w).world.connections = w.connections ∧
    (AddTaskEMCALPi0Calibration ext calibPath trigger recalE recalT rmBad nonlin simu
        outputFile trigSuffix w).world.nextPtr = w.nextPtr ∧
    (callsOf w (AddTaskEMCALPi0Calibration ext calibPath trigger recalE recalT rmBad nonlin
        simu outputFile trigSuffix w) =
        [Call.GetAnalysisManager,
          Call.Error "AddTaskEMCALTriggerQA" "No analysis manager to connect to."] ∨
      callsOf w (AddTaskEMCALPi0Calibration ext calibPath trigger recalE recalT rmBad nonlin
        simu outputFile trigSuffix w) =
        [Call.GetAnalysisManager, Call.GetInputEventHandler,
          Call.Error "AddTaskEMCALPi0Calibration"
            "This task requires an input event handler"]) := by
  rcases hfail with hm | ⟨mgr, hm, hh⟩
  · rw [failure_no_manager ext calibPath trigger recalE recalT rmBad nonlin simu outputFile
      trigSuffix w hm, callsOf_mk]
    simp [World.tasks, World.containers, World.connections, hm]
  · rw [failure_no_handler ext calibPath trigger recalE recalT rmBad nonlin simu outputFile
      trigSuffix w mgr hm hh, callsOf_mk]
    simp [World.tasks, World.containers, World.connections, hm]

/-- Witness of C2 on the sample manager without input event handler and on the process
without manager. -/
theorem C2_failure_is_atomic_witness :
    (noHandlerWorld.fgAnalysisManager = none ∨
      ∃ mgr, noHandlerWorld.fgAnalysisManager = some mgr ∧ mgr.fInputEventHandler = false) ∧
    (AddTaskEMCALPi0Calibration sampleExt "calib.root" "MB" true true true true false
      "out.root" "EG1" noHandlerWorld).world.tasks = [1] ∧
    (AddTaskEMCALPi0Calibration sampleExt "calib.root" "MB" true true true true false
      "out.root" "EG1" noManagerWorld).result = none :=
  ⟨Or.inr ⟨_, rfl, rfl⟩,
   (C2_failure_is_atomic sampleExt "calib.root" "MB" true true true true false
      "out.root" "EG1" noHandlerWorld (Or.inr ⟨_, rfl, rfl⟩)).2.2.2.1,
   (C2_failure_is_atomic sampleExt "calib.root" "MB" true true true true false
      "out.root" "EG1" noManagerWorld (Or.inl rfl)).1⟩

/-- C3: with `recalE = false`, whatever `ConfigureEMCALRecoUtils`, the constructor and the
other parameters set, the returned task has the reco-utils recalibration flag, the
reco-utils run-dependent-correction flag, the load-own-geometry-matrices flag and the
recalculate-position flag all off, and no configuration call follows the four
switch-offs. -/
theorem C3_recalE_off_forces_flags_off (ext : Externals) (calibPath trigger : String)
    (recalT rmBad nonlin simu : Bool) (outputFile trigSuffix : String) (w : World)
    (hs : (AddTaskEMCALPi0Calibration ext calibPath trigger false recalT rmBad nonlin simu
        outputFile trigSuffix w).result ≠ none) :
    (∃ t, (AddTaskEMCALPi0Calibration ext calibPath trigger false recalT rmBad nonlin simu
          outputFile trigSuffix w).pi0calib = some t ∧
        t.fRecoUtils.fRecalibration = false ∧
        t.fRecoUtils.fUseRunCorrectionFactors = false ∧
        t.fLoadMatrices = false ∧
        t.fRecalPosition = false) ∧
    ∃ pre post,
      callsOf w (AddTaskEMCALPi0Calibration ext calibPath trigger false recalT rmBad nonlin
          simu outputFile trigSuffix w) =
        pre ++ [Call.reco .SwitchOffRecalibration, Call.reco .SwitchOffRunDepCorrection,
          Call.task .SwitchOffLoadOwnGeometryMatrices,
          Call.task .SwitchOffRecalculatePosition] ++ post ∧
      ∀ c ∈ post, c.isConfiguration = false := by
  obtain ⟨mgr, hm, hh⟩ := guards_of_success ext calibPath trigger false recalT rmBad nonlin
    simu outputFile trigSuffix w hs
  rw [success_form ext calibPath trigger false recalT rmBad nonlin simu outputFile
    trigSuffix w mgr hm hh, callsOf_mk]
  constructor
  · by_cases h2 : outputFile = "" <;>
      simp [h2, successCalls, replay, TaskCall.exec, RecoCall.exec]
  · refine ⟨(successCalls calibPath trigger false recalT rmBad nonlin simu outputFile
        trigSuffix w.nextPtr mgr.fCommonInput w.fgCommonFileName).take 23,
      (successCalls calibPath trigger false recalT rmBad nonlin simu outputFile
        trigSuffix w.nextPtr mgr.fCommonInput w.fgCommonFileName).drop 27, ?_, ?_⟩
    · simp [successCalls]
    · by_cases h2 : outputFile = "" <;> simp [h2, successCalls, Call.isConfiguration]

/-- Witness of C3: the sample `ConfigureEMCALRecoUtils` turns the run-dependent correction
on and the sample constructor starts with both task flags on. -/
theorem C3_recalE_off_forces_flags_off_witness :
    (AddTaskEMCALPi0Calibration sampleExt "calib.root" "MB" false true true true false
        "out.root" "EG1" sampleWorld).result ≠ none ∧
    ∃ t, (AddTaskEMCALPi0Calibration sampleExt "calib.root" "MB" false true true true false
          "out.root" "EG1" sampleWorld).pi0calib = some t ∧
        t.fRecoUtils.fRecalibration = false ∧
        t.fRecoUtils.fUseRunCorrectionFactors = false ∧
        t.fLoadMatrices = false ∧
        t.fRecalPosition = false :=
  ⟨by decide,
   (C3_recalE_off_forces_flags_off sampleExt "calib.root" "MB" true true true false
      "out.root" "EG1" sampleWorld (by decide)).1⟩

/-- C4: with `F` the `outputFile` parameter when it is non-empty and the common output file
name otherwise, a successful invocation adds exactly one container to the manager, an
output container; for a non-empty `trigSuffix` it is named `trigSuffix` and writes into
`F ++ ":Pi0Calibration"`, for an empty one it is named `"Pi0Calibration_Trig" ++ trigger`
and writes into `F`. -/
theorem C4_output_container_name_and_file (ext : Externals) (calibPath trigger : String)
    (recalE recalT rmBad nonlin simu : Bool) (outputFile trigSuffix : String) (w : World)
    (hs : (AddTaskEMCALPi0Calibration ext calibPath trigger recalE recalT rmBad nonlin simu
        outputFile trigSuffix w).result ≠ none) :
    ∃ c, (AddTaskEMCALPi0Calibration ext calibPath trigger recalE recalT rmBad nonlin simu
          outputFile trigSuffix w).world.containers = w.containers ++ [c] ∧
      c.fContType = .kOutputContainer ∧
      (trigSuffix ≠ "" →
        c.fName = trigSuffix ∧
        c.fFileName =
          (if outputFile ≠ "" then outputFile else w.fgCommonFileName) ++ ":Pi0Calibration") ∧
      (trigSuffix = "" →
        c.fName = "Pi0Calibration_Trig" ++ trigger ∧
        c.fFileName = if outputFile ≠ "" then outputFile else w.fgCommonFileName) := by
  obtain ⟨mgr, hm, hh⟩ := guards_of_success ext calibPath trigger recalE recalT rmBad nonlin
    simu outputFile trigSuffix w hs
  rw [success_form ext calibPath trigger recalE recalT rmBad nonlin simu outputFile
    trigSuffix w mgr hm hh]
  simp only [World.containers, hm]
  refine ⟨_, rfl, ?_⟩
  by_cases h1 : trigSuffix = "" <;> by_cases h2 : outputFile = "" <;> simp [h1, h2]

/-- Witness of C4 with the suffix `"EG1"` and no output file given. -/
theorem C4_output_container_name_and_file_witness :
    (AddTaskEMCALPi0Calibration sampleExt "" "MB" false false false true false
        "" "EG1" sampleWorld).result ≠ none ∧
    ∃ c, (AddTaskEMCALPi0Calibration sampleExt "" "MB" false false false true false
          "" "EG1" sampleWorld).world.containers = sampleWorld.containers ++ [c] ∧
      c.fContType = .kOutputContainer ∧
      (("EG1" : String) ≠ "" →
        c.fName = "EG1" ∧
        c.fFileName =
          (if ("" : String) ≠ "" then "" else sampleWorld.fgCommonFileName)
            ++ ":Pi0Calibration") ∧
      (("EG1" : String) = "" →
        c.fName = "Pi0Calibration_Trig" ++ "MB" ∧
        c.fFileName = if ("" : String) ≠ "" then "" else sampleWorld.fgCommonFileName) :=
  ⟨by decide,
   C4_output_container_name_and_file sampleExt "" "MB" false false false true false
      "" "EG1" sampleWorld (by decide)⟩

/-- C5: in a successful invocation `InitEnergyCalibrationFactors` is called if and only if
`calibPath` is non-empty and `recalE` is true; it is then called exactly once, after
`SetCalibrationFilePath(calibPath)` and before the first `AddTask`. -/
theorem C5_init_energy_calibration_factors (ext : Externals) (calibPath trigger : String)
    (recalE recalT rmBad nonlin simu : Bool) (outputFile trigSuffix : String) (w : World)
    (hs : (AddTaskEMCALPi0Calibration ext calibPath trigger recalE recalT rmBad nonlin simu
        outputFile trigSuffix w).result ≠ none) :
    (Call.task .InitEnergyCalibrationFactors ∈
        callsOf w (AddTaskEMCALPi0Calibration ext calibPath trigger recalE recalT rmBad nonlin
          simu outputFile trigSuffix w) ↔
      (calibPath ≠ "" ∧ recalE = true)) ∧
    (calibPath ≠ "" ∧ recalE = true →
      ∃ pre mid post,
        callsOf w (AddTaskEMCALPi0Calibration ext calibPath trigger recalE recalT rmBad nonlin
            simu outputFile trigSuffix w) =
          pre ++ [Call.task (.SetCalibrationFilePath calibPath)] ++ mid ++
            [Call.task .InitEnergyCalibrationFactors] ++ post ∧
        (∀ c ∈ pre ++ mid, c.isAddTask = false) ∧
        (∃ p, Call.AddTask p ∈ post) ∧
        Call.task .InitEnergyCalibrationFactors ∉ pre ++ mid ++ post) := by
  obtain ⟨mgr, hm, hh⟩ := guards_of_success ext calibPath trigger recalE recalT rmBad nonlin
    simu outputFile trigSuffix w hs
  rw [success_form ext calibPath trigger recalE recalT rmBad nonlin simu outputFile
    trigSuffix w mgr hm hh, callsOf_mk]
  constructor
  · by_cases h3 : calibPath = "" <;> cases recalE <;> by_cases h2 : outputFile = "" <;>
      simp [h2, h3, successCalls]
  · rintro ⟨h3, rfl⟩
    refine ⟨(successCalls calibPath trigger true recalT rmBad nonlin simu outputFile
        trigSuffix w.nextPtr mgr.fCommonInput w.fgCommonFileName).take 22,
      [Call.printf
        ("AddTaskEMCALPi0Calibration - Get the energy calibration factors from: \n "
          ++ calibPath ++ " \n")],
      (successCalls calibPath trigger true recalT rmBad nonlin simu outputFile
        trigSuffix w.nextPtr mgr.fCommonInput w.fgCommonFileName).drop 25, ?_, ?_, ?_, ?_⟩
    · simp [successCalls, h3]
    · simp [successCalls, Call.isAddTask]
    · exact ⟨w.nextPtr, by simp [successCalls, h3]⟩
    · by_cases h2 : outputFile = "" <;> simp [successCalls, h2, h3]

/-- Witness of C5 with a calibration path and `recalE = true`. -/
theorem C5_init_energy_calibration_factors_witness :
    (AddTaskEMCALPi0Calibration sampleExt "calib.root" "MB" true false false true false
        "" "" sampleWorld).result ≠ none ∧
    Call.task .InitEnergyCalibrationFactors ∈
      callsOf sampleWorld (AddTaskEMCALPi0Calibration sampleExt "calib.root" "MB" true false
        false true false "" "" sampleWorld) :=
  ⟨by decide,
   (C5_init_energy_calibration_factors sampleExt "calib.root" "MB" true false false true false
      "" "" sampleWorld (by decide)).1.mpr ⟨by decide, rfl⟩⟩

/-- C6: whenever the result is non-null, the returned task is in the manager's task list,
the manager gained exactly two connections, input slot 0 of the task to the common input
container and output slot 1 of the task to the container this invocation created, and
exactly one `ConnectInput` and one `ConnectOutput` were called; if the address of the task
had no connection before, these two are all its connections. -/
theorem C6_registered_and_connected (ext : Externals) (calibPath trigger : String)
    (recalE recalT rmBad nonlin simu : Bool) (outputFile trigSuffix : String) (w : World)
    (hs : (AddTaskEMCALPi0Calibration ext calibPath trigger recalE recalT rmBad nonlin simu
        outputFile trigSuffix w).result ≠ none) :
    ∃ p cin c,
      (AddTaskEMCALPi0Calibration ext calibPath trigger recalE recalT rmBad nonlin simu
        outputFile trigSuffix w).result = some p ∧
      w.commonInput = some cin ∧
      p ∈ (AddTaskEMCALPi0Calibration ext calibPath trigger recalE recalT rmBad nonlin simu
        outputFile trigSuffix w).world.tasks ∧
      createdContainers w (AddTaskEMCALPi0Calibration ext calibPath trigger recalE recalT rmBad
        nonlin simu outputFile trigSuffix w) = [c] ∧
      (AddTaskEMCALPi0Calibration ext calibPath trigger recalE recalT rmBad nonlin simu
        outputFile trigSuffix w).world.connections =
          w.connections ++ [⟨true, p, 0, cin⟩, ⟨false, p, 1, c.addr⟩] ∧
      (callsOf w (AddTaskEMCALPi0Calibration ext calibPath trigger recalE recalT rmBad nonlin
        simu outputFile trigSuffix w)).filter Call.isConnect =
          [Call.ConnectInput p 0 cin, Call.ConnectOutput p 1 c.addr] ∧
      ((∀ k ∈ w.connections, k.task ≠ p) →
        (AddTaskEMCALPi0Calibration ext calibPath trigger recalE recalT rmBad nonlin simu
          outputFile trigSuffix w).world.connections.filter (fun k => k.task = p) =
            [⟨true, p, 0, cin⟩, ⟨false, p, 1, c.addr⟩]) := by
  obtain ⟨mgr, hm, hh⟩ := guards_of_success ext calibPath trigger recalE recalT rmBad nonlin
    simu outputFile trigSuffix w hs
  rw [success_form ext calibPath trigger recalE recalT rmBad nonlin simu outputFile
    trigSuffix w mgr hm hh, callsOf_mk]
  simp only [World.commonInput, World.tasks, World.connections, World.containers,
    createdContainers, hm, Option.map_some']
  refine ⟨w.nextPtr, mgr.fCommonInput, _, rfl, rfl, by simp, List.drop_left _ _, rfl, ?_, ?_⟩
  · by_cases h3 : calibPath = "" <;> cases recalE <;> by_cases h2 : outputFile = "" <;>
      simp [h2, h3, successCalls, Call.isConnect]
  · intro hfresh
    have hold : mgr.fConnections.filter (fun k => k.task = w.nextPtr) = [] := by
      rw [List.filter_eq_nil_iff]
      intro k hk
      simpa using hfresh k hk
    simp [List.filter_append, hold]

/-- Witness of C6 on the sample manager. -/
theorem C6_registered_and_connected_witness :
    (AddTaskEMCALPi0Calibration sampleExt "" "MB" false false false true false
        "" "" sampleWorld).result ≠ none ∧
    ∃ p cin c,
      (AddTaskEMCALPi0Calibration sampleExt "" "MB" false false false true false
        "" "" sampleWorld).result = some p ∧
      sampleWorld.commonInput = some cin ∧
      p ∈ (AddTaskEMCALPi0Calibration sampleExt "" "MB" false false false true false
        "" "" sampleWorld).world.tasks ∧
      createdContainers sampleWorld (AddTaskEMCALPi0Calibration sampleExt "" "MB" false false
        false true false "" "" sampleWorld) = [c] ∧
      (AddTaskEMCALPi0Calibration sampleExt "" "MB" false false false true false
        "" "" sampleWorld).world.connections =
          sampleWorld.connections ++ [⟨true, p, 0, cin⟩, ⟨false, p, 1, c.addr⟩] :=
  ⟨by decide,
   let ⟨p, cin, c, h1, h2, h3, h4, h5, _⟩ :=
     C6_registered_and_connected sampleExt "" "MB" false false false true false
       "" "" sampleWorld (by decide)
   ⟨p, cin, c, h1, h2, h3, h4, h5⟩⟩

/-- C7: in a successful invocation the effective trigger label is `trigSuffix` when that is
non-empty and `trigger` otherwise; the one task constructed gets the name
`"EMCALPi0Calibration_" ++ label`, the one `SetTriggerName` call receives the same label,
and with a non-empty `trigSuffix` the whole outcome is independent of `trigger`. -/
theorem C7_effective_trigger_label (ext : Externals) (calibPath trigger : String)
    (recalE recalT rmBad nonlin simu : Bool) (outputFile trigSuffix : String) (w : World)
    (hs : (AddTaskEMCALPi0Calibration ext calibPath trigger recalE recalT rmBad nonlin simu
        outputFile trigSuffix w).result ≠ none) :
    (∀ name q, Call.newTask name q ∈
        callsOf w (AddTaskEMCALPi0Calibration ext calibPath trigger recalE recalT rmBad nonlin
          simu outputFile trigSuffix w) ↔
      (name = "EMCALPi0Calibration_" ++ (if trigSuffix ≠ "" then trigSuffix else trigger) ∧
        q = w.nextPtr)) ∧
    (∀ name, Call.task (.SetTriggerName name) ∈
        callsOf w (AddTaskEMCALPi0Calibration ext calibPath trigger recalE recalT rmBad nonlin
          simu outputFile trigSuffix w) ↔
      name = (if trigSuffix ≠ "" then trigSuffix else trigger)) ∧
    (trigSuffix ≠ "" → ∀ trigger2 : String,
      AddTaskEMCALPi0Calibration ext calibPath trigger2 recalE recalT rmBad nonlin simu
          outputFile trigSuffix w =
        AddTaskEMCALPi0Calibration ext calibPath trigger recalE recalT rmBad nonlin simu
          outputFile trigSuffix w) := by
  obtain ⟨mgr, hm, hh⟩ := guards_of_success ext calibPath trigger recalE recalT rmBad nonlin
    simu outputFile trigSuffix w hs
  refine ⟨?_, ?_, ?_⟩
  · rw [success_form ext calibPath trigger recalE recalT rmBad nonlin simu outputFile
      trigSuffix w mgr hm hh, callsOf_mk]
    intro name q
    by_cases h1 : trigSuffix = "" <;> by_cases h3 : calibPath = "" <;> cases recalE <;>
      by_cases h2 : outputFile = "" <;> simp [h1, h2, h3, successCalls]
  · rw [success_form ext calibPath trigger recalE recalT rmBad nonlin simu outputFile
      trigSuffix w mgr hm hh, callsOf_mk]
    intro name
    by_cases h1 : trigSuffix = "" <;> by_cases h3 : calibPath = "" <;> cases recalE <;>
      by_cases h2 : outputFile = "" <;> simp [h1, h2, h3, successCalls]
  · intro h1 trigger2
    rw [success_form ext calibPath trigger recalE recalT rmBad nonlin simu outputFile
      trigSuffix w mgr hm hh,
      success_form ext calibPath trigger2 recalE recalT rmBad nonlin simu outputFile
      trigSuffix w mgr hm hh]
    simp [h1, successCalls]

/-- Witness of C7: with the suffix `"EG1"` and the trigger `"MB"`, `SetTriggerName` receives
`"EG1"`. -/
theorem C7_effective_trigger_label_witness :
    (AddTaskEMCALPi0Calibration sampleExt "" "MB" false false false true false
        "" "EG1" sampleWorld).result ≠ none ∧
    Call.task (.SetTriggerName "EG1") ∈
      callsOf sampleWorld (AddTaskEMCALPi0Calibration sampleExt "" "MB" false false false true
        false "" "EG1" sampleWorld) :=
  ⟨by decide,
   ((C7_effective_trigger_label sampleExt "" "MB" false false false true false
      "" "EG1" sampleWorld (by decide)).2.1 "EG1").mpr (by decide)⟩

/-- Replaying two sequences of calls one after the other. -/
theorem replay_append (ext : Externals) (a b : List Call)
    (t : Option AliAnalysisTaskEMCALPi0CalibSelection) :
    replay ext (a ++ b) t = replay ext b (replay ext a t) := by
  induction a generalizing t with
  | nil => rfl
  | cons c cs ih => cases c <;> simp [replay, ih]

/-- Operations of the manager leave the task object alone. -/
theorem replay_managerOps (ext : Externals) (cs : List Call)
    (t : Option AliAnalysisTaskEMCALPi0CalibSelection)
    (h : ∀ c ∈ cs, c.isManagerOp = true) : replay ext cs t = t := by
  induction cs generalizing t with
  | nil => rfl
  | cons c cs ih =>
    have hc : c.isManagerOp = true := h c (List.mem_cons_self _ _)
    have ht : ∀ c ∈ cs, c.isManagerOp = true := fun c hc => h c (List.mem_cons_of_mem _ hc)
    cases c <;> simp_all [replay, Call.isManagerOp]

/-- C9: in a successful invocation no configuration call on the task or on its reco-utils
object follows the first `AddTask`; what follows are operations of the manager only, so
the task object at return is the task object as it was when it was registered. -/
theorem C9_no_configuration_after_registration (ext : Externals) (calibPath trigger : String)
    (recalE recalT rmBad nonlin simu : Bool) (outputFile trigSuffix : String) (w : World)
    (hs : (AddTaskEMCALPi0Calibration ext calibPath trigger recalE recalT rmBad nonlin simu
        outputFile trigSuffix w).result ≠ none) :
    ∃ pre p post,
      callsOf w (AddTaskEMCALPi0Calibration ext calibPath trigger recalE recalT rmBad nonlin
          simu outputFile trigSuffix w) = pre ++ [Call.AddTask p] ++ post ∧
      (∀ c ∈ pre, c.isAddTask = false) ∧
      (∀ c ∈ post, c.isConfiguration = false ∧ c.isManagerOp = true) ∧
      (AddTaskEMCALPi0Calibration ext calibPath trigger recalE recalT rmBad nonlin simu
          outputFile trigSuffix w).pi0calib = replay ext pre none ∧
      (AddTaskEMCALPi0Calibration ext calibPath trigger recalE recalT rmBad nonlin simu
          outputFile trigSuffix w).pi0calib =
        replay ext (callsOf w (AddTaskEMCALPi0Calibration ext calibPath trigger recalE recalT
          rmBad nonlin simu outputFile trigSuffix w)) none := by
  obtain ⟨mgr, hm, hh⟩ := guards_of_success ext calibPath trigger recalE recalT rmBad nonlin
    simu outputFile trigSuffix w hs
  rw [success_form ext calibPath trigger recalE recalT rmBad nonlin simu outputFile
    trigSuffix w mgr hm hh, callsOf_mk]
  have hsplit : ∃ pre post,
      successCalls calibPath trigger recalE recalT rmBad nonlin simu outputFile trigSuffix
          w.nextPtr mgr.fCommonInput w.fgCommonFileName =
        pre ++ [Call.AddTask w.nextPtr] ++ post ∧
      (∀ c ∈ pre, c.isAddTask = false) ∧
      (∀ c ∈ post, c.isConfiguration = false ∧ c.isManagerOp = true) := by
    cases recalE with
    | false =>
      refine ⟨(successCalls calibPath trigger false recalT rmBad nonlin simu outputFile
          trigSuffix w.nextPtr mgr.fCommonInput w.fgCommonFileName).take 29,
        (successCalls calibPath trigger false recalT rmBad nonlin simu outputFile
          trigSuffix w.nextPtr mgr.fCommonInput w.fgCommonFileName).drop 30, ?_, ?_, ?_⟩ <;>
        by_cases h2 : outputFile = "" <;>
        simp [h2, successCalls, Call.isAddTask, Call.isConfiguration, Call.isManagerOp]
    | true =>
      by_cases h3 : calibPath = ""
      ·
        refine ⟨(successCalls calibPath trigger true recalT rmBad nonlin simu outputFile
            trigSuffix w.nextPtr mgr.fCommonInput w.fgCommonFileName).take 24,
          (successCalls calibPath trigger true recalT rmBad nonlin simu outputFile
            trigSuffix w.nextPtr mgr.fCommonInput w.fgCommonFileName).drop 25, ?_, ?_, ?_⟩ <;>
          by_cases h2 : outputFile = "" <;>
          simp [h2, h3, successCalls, Call.isAddTask, Call.isConfiguration, Call.isManagerOp]
      ·
        refine ⟨(successCalls calibPath trigger true recalT rmBad nonlin simu outputFile
            trigSuffix w.nextPtr mgr.fCommonInput w.fgCommonFileName).take 26,
          (successCalls calibPath trigger true recalT rmBad nonlin simu outputFile
            trigSuffix w.nextPtr mgr.fCommonInput w.fgCommonFileName).drop 27, ?_, ?_, ?_⟩ <;>
          by_cases h2 : outputFile = "" <;>
          simp [h2, h3, successCalls, Call.isAddTask, Call.isConfiguration, Call.isManagerOp]
  obtain ⟨pre, post, hcalls, hpre, hpost⟩ := hsplit
  refine ⟨pre, w.nextPtr, post, hcalls, hpre, hpost, ?_, rfl⟩
  show replay ext _ none = _
  rw [hcalls, replay_append, replay_append]
  rw [replay_managerOps ext post _ (fun c hc => (hpost c hc).2)]
  rfl

/-- Witness of C9 on the sample manager, with the calibration factors loaded. -/
theorem C9_no_configuration_after_registration_witness :
    (AddTaskEMCALPi0Calibration sampleExt "calib.root" "MB" true false false true false
        "" "EG1" sampleWorld).result ≠ none ∧
    ∃ pre p post,
      callsOf sampleWorld (AddTaskEMCALPi0Calibration sampleExt "calib.root" "MB" true false
        false true false "" "EG1" sampleWorld) = pre ++ [Call.AddTask p] ++ post ∧
      (∀ c ∈ pre, c.isAddTask = false) ∧
      (∀ c ∈ post, c.isConfiguration = false ∧ c.isManagerOp = true) :=
  ⟨by decide,
   let ⟨pre, p, post, h1, h2, h3, _⟩ :=
     C9_no_configuration_after_registration sampleExt "calib.root" "MB" true false false true
       false "" "EG1" sampleWorld (by decide)
   ⟨pre, p, post, h1, h2, h3⟩⟩

/-- C8 (as stated, refuted): two successful invocations on the same manager with different
`trigSuffix` values, the first with an empty suffix and trigger `"X"`, the second with the
suffix `"Pi0Calibration_TrigX"`, create two containers of the same name. -/
theorem C8_counterexample :
    (AddTaskEMCALPi0Calibration sampleExt "" "X" false false false true false "" ""
        sampleWorld).result ≠ none ∧
    (AddTaskEMCALPi0Calibration sampleExt "" "" false false false true false ""
        "Pi0Calibration_TrigX" afterFirstWagon).result ≠ none ∧
    ("" : String) ≠ "Pi0Calibration_TrigX" ∧
    (createdContainers sampleWorld
        (AddTaskEMCALPi0Calibration sampleExt "" "X" false false false true false "" ""
          sampleWorld)).map (fun c => c.fName) = ["Pi0Calibration_TrigX"] ∧
    (createdContainers afterFirstWagon
        (AddTaskEMCALPi0Calibration sampleExt "" "" false false false true false ""
          "Pi0Calibration_TrigX" afterFirstWagon)).map (fun c => c.fName) =
      ["Pi0Calibration_TrigX"] := by
  decide

/-- C8 (amended): two successful invocations whose `trigSuffix` values differ create
output containers of different names, provided that when one suffix is empty the other
suffix is not `"Pi0Calibration_Trig"` followed by the trigger of the empty-suffix
invocation. -/
theorem C8_container_names_differ (ext1 ext2 : Externals)
    (calibPath1 trigger1 : String) (recalE1 recalT1 rmBad1 nonlin1 simu1 : Bool)
    (outputFile1 trigSuffix1 : String)
    (calibPath2 trigger2 : String) (recalE2 recalT2 rmBad2 nonlin2 simu2 : Bool)
    (outputFile2 trigSuffix2 : String) (w1 w2 : World)
    (hs1 : (AddTaskEMCALPi0Calibration ext1 calibPath1 trigger1 recalE1 recalT1 rmBad1 nonlin1
        simu1 outputFile1 trigSuffix1 w1).result ≠ none)
    (hs2 : (AddTaskEMCALPi0Calibration ext2 calibPath2 trigger2 recalE2 recalT2 rmBad2 nonlin2
        simu2 outputFile2 trigSuffix2 w2).result ≠ none)
    (hne : trigSuffix1 ≠ trigSuffix2)
    (h12 : trigSuffix1 = "" → trigSuffix2 ≠ "Pi0Calibration_Trig" ++ trigger1)
    (h21 : trigSuffix2 = "" → trigSuffix1 ≠ "Pi0Calibration_Trig" ++ trigger2) :
    ∃ c1 c2,
      createdContainers w1 (AddTaskEMCALPi0Calibration ext1 calibPath1 trigger1 recalE1
        recalT1 rmBad1 nonlin1 simu1 outputFile1 trigSuffix1 w1) = [c1] ∧
      createdContainers w2 (AddTaskEMCALPi0Calibration ext2 calibPath2 trigger2 recalE2
        recalT2 rmBad2 nonlin2 simu2 outputFile2 trigSuffix2 w2) = [c2] ∧
      c1.fName ≠ c2.fName := by
  obtain ⟨mgr1, hm1, hh1⟩ := guards_of_success ext1 calibPath1 trigger1 recalE1 recalT1 rmBad1
    nonlin1 simu1 outputFile1 trigSuffix1 w1 hs1
  obtain ⟨mgr2, hm2, hh2⟩ := guards_of_success ext2 calibPath2 trigger2 recalE2 recalT2 rmBad2
    nonlin2 simu2 outputFile2 trigSuffix2 w2 hs2
  rw [success_form ext1 calibPath1 trigger1 recalE1 recalT1 rmBad1 nonlin1 simu1 outputFile1
    trigSuffix1 w1 mgr1 hm1 hh1,
    success_form ext2 calibPath2 trigger2 recalE2 recalT2 rmBad2 nonlin2 simu2 outputFile2
    trigSuffix2 w2 mgr2 hm2 hh2]
  simp only [createdContainers, World.containers, hm1, hm2]
  refine ⟨_, _, List.drop_left _ _, List.drop_left _ _, ?_⟩
  by_cases e1 : trigSuffix1 = "" <;> by_cases e2 : trigSuffix2 = ""
  · exact absurd (e1.trans e2.symm) hne
  · simpa [e1, e2] using fun h => h12 e1 h.symm
  · simpa [e1, e2] using h21 e2
  · simpa [e1, e2] using hne

/-- Witness of the amended C8: the suffix `"EG1"` against an empty suffix with trigger `"MB"`. -/
theorem C8_container_names_differ_witness :
    (AddTaskEMCALPi0Calibration sampleExt "" "MB" false false false true false "" "EG1"
        sampleWorld).result ≠ none ∧
    ∃ c1 c2,
      createdContainers sampleWorld (AddTaskEMCALPi0Calibration sampleExt "" "MB" false false
        false true false "" "EG1" sampleWorld) = [c1] ∧
      createdContainers afterFirstWagon (AddTaskEMCALPi0Calibration sampleExt "" "MB" false
        false false true false "" "" afterFirstWagon) = [c2] ∧
      c1.fName ≠ c2.fName :=
  ⟨by decide,
   C8_container_names_differ sampleExt sampleExt "" "MB" false false false true false "" "EG1"
     "" "MB" false false false true false "" "" sampleWorld afterFirstWagon
     (by decide) (by decide) (by decide) (by decide) (by decide)⟩

/-- C10 (the code at the failing input): started on a manager whose task list is `[1]`,
the invocation with the default parameters returns the task at address 3 and leaves the
task list `[1, 3, 3]`: `AddTask` is called twice on the returned task, so the task list
grows by two entries, while the container list grows by one. -/
theorem C10_task_registered_twice :
    (AddTaskEMCALPi0Calibration sampleExt "" "" false false false true false "" ""
        sampleWorld).result = some 3 ∧
    sampleWorld.tasks = [1] ∧
    (AddTaskEMCALPi0Calibration sampleExt "" "" false false false true false "" ""
        sampleWorld).world.tasks = [1, 3, 3] ∧
    (AddTaskEMCALPi0Calibration sampleExt "" "" false false false true false "" ""
        sampleWorld).world.containers.length = sampleWorld.containers.length + 1 ∧
    (callsOf sampleWorld (AddTaskEMCALPi0Calibration sampleExt "" "" false false false true
        false "" "" sampleWorld)).count (Call.AddTask 3) = 2 := by
  decide

end AliPhysics
